import Mathlib

/- Shallow embedding of the SocialCast feed narration pipeline.
   Part 1: the text chunker `chunk_text` from FINAL_SUBMISSION.md.
   Part 2: the content script from chrome-extension/content.js (post
   extraction and deduplication, transport controls, voice commands,
   audio playback). Text is modelled as List Char; Python and JS string
   operations are embedded as functions on character lists. -/

/-- Whitespace test shared by the Python str.strip / str.split embeddings and
the JS String.trim embedding (space, tab, newline, carriage return). -/
def pyIsSpace (c : Char) : Bool :=
  c = ' ' || c = '\t' || c = '\n' || c = '\r'

/-- Python str.strip / JS String.trim: drop whitespace at both ends. -/
def trimWs (l : List Char) : List Char :=
  ((l.dropWhile pyIsSpace).reverse.dropWhile pyIsSpace).reverse

/-- Python text.split(". "): split on the two-character delimiter, leftmost
non-overlapping matches, empty pieces kept. -/
def splitDotSpace : List Char → List (List Char)
  | [] => [[]]
  | '.' :: ' ' :: rest => [] :: splitDotSpace rest
  | c :: rest =>
    match splitDotSpace rest with
    | [] => [[c]]
    | p :: ps => (c :: p) :: ps

/-- Helper for Python str.split() with no argument: accumulate the current
word (reversed) and break on whitespace runs, discarding empty pieces. -/
def pySplitWsAux : List Char → List Char → List (List Char)
  | [], acc => if acc = [] then [] else [acc.reverse]
  | c :: rest, acc =>
    if pyIsSpace c then
      if acc = [] then pySplitWsAux rest []
      else acc.reverse :: pySplitWsAux rest []
    else pySplitWsAux rest (c :: acc)

/-- Python sentence.split(): split on whitespace runs, no empty pieces. -/
def pySplitWs (l : List Char) : List (List Char) :=
  pySplitWsAux l []

/-- Inner loop of chunk_text over the words of an oversized sentence.
State is (chunks so far, current_chunk). Mirrors FINAL_SUBMISSION.md:
if len(current_chunk + word + " ") > max_size then either flush
current_chunk and restart it with the word, or (current_chunk empty)
append the word hard-truncated to max_size; else append the word. -/
def chunkWordStep (max_size : Nat) (st : List (List Char) × List Char)
    (word : List Char) : List (List Char) × List Char :=
  if max_size < (st.2 ++ word ++ [' ']).length then
    if st.2 ≠ [] then (st.1 ++ [trimWs st.2], word ++ [' '])
    else (st.1 ++ [word.take max_size], st.2)
  else (st.1, st.2 ++ word ++ [' '])

/-- Outer loop of chunk_text over sentences. Mirrors FINAL_SUBMISSION.md:
if len(current_chunk + sentence) > max_size then either flush current_chunk
and restart it with the sentence, or (current_chunk empty) fall back to the
word loop; else append the sentence to current_chunk. -/
def chunkSentenceStep (max_size : Nat) (st : List (List Char) × List Char)
    (sentence : List Char) : List (List Char) × List Char :=
  if max_size < (st.2 ++ sentence).length then
    if st.2 ≠ [] then (st.1 ++ [trimWs st.2], sentence)
    else (pySplitWs sentence).foldl (chunkWordStep max_size) st
  else (st.1, st.2 ++ sentence)

/-- chunk_text from FINAL_SUBMISSION.md (SUBMISSION_APP.py): split text into
chunks for the Murf API, default max_size 3000. Returns [text] when the text
fits; otherwise folds the sentence loop over text.split(". ") and returns the
accumulated chunks (the trailing current_chunk is not appended, exactly as in
the source, whose final statement is `return chunks`). -/
def chunk_text (text : List Char) (max_size : Nat) : List (List Char) :=
  if text.length ≤ max_size then [text]
  else ((splitDotSpace text).foldl (chunkSentenceStep max_size) ([], [])).1

/-- JS ToInt32: wrap an integer into the signed 32-bit range, as the
`hash & hash` step of generatePostId does. -/
def toInt32 (n : Int) : Int :=
  (n + 2147483648) % 4294967296 - 2147483648

/-- One iteration of the hash loop of generatePostId from content.js:
hash = ((hash << 5) - hash) + charCode; hash = hash & hash.
The shift is a 32-bit shift of an int32 value, the sum is exact, and the
final bitwise and coerces back to int32. -/
def jsHashStep (hash : Int) (c : Char) : Int :=
  toInt32 (toInt32 (hash * 32) - hash + (c.toNat : Int))

/-- The full hash loop of generatePostId over the text. -/
def jsHash (text : List Char) : Int :=
  text.foldl jsHashStep 0

/-- generatePostId from content.js: platform tag, underscore, absolute value
of the 32-bit text hash rendered in decimal. -/
def generatePostId (platform : String) (text : List Char) : String :=
  platform ++ "_" ++ toString (jsHash text).natAbs

/-- The audio element held by the content script: source url, current
playback position, duration, and whether it is paused. -/
structure AudioPlayer where
  url : String
  pos : Nat
  duration : Nat
  paused : Bool
deriving DecidableEq

/-- A post object as built by extractPostFromElement. -/
structure Post where
  platform : String
  author : String
  content : List Char
  url : String
  media_type : String
deriving DecidableEq

/-- A rendered DOM node as the extractor sees it: its textContent, and the
author and media kind its selector probes resolve to. -/
structure DomElement where
  textContent : List Char
  author : String
  mediaType : String
deriving DecidableEq

/-- The mutable state of SocialCastContentScript: listening flag, platform,
page url, the extractedPosts dedup set (as a list of PostIds), the ordered
list of posts sent to the backend, the audio player, voice recognition
activity, player overlay visibility, status line and progress bar. -/
structure ScriptState where
  isListening : Bool
  currentPlatform : String
  pageUrl : String
  extractedPosts : List String
  requests : List Post
  audioPlayer : Option AudioPlayer
  voiceActive : Bool
  playerVisible : Bool
  status : String
  progress : Nat
deriving DecidableEq

/-- The state set up by the SocialCastContentScript constructor: not
listening, empty dedup set, no requests, no audio player. -/
def initialState (platform url : String) : ScriptState :=
  { isListening := false, currentPlatform := platform, pageUrl := url,
    extractedPosts := [], requests := [], audioPlayer := none,
    voiceActive := false, playerVisible := false, status := "Ready",
    progress := 0 }

/-- The post record extractPostFromElement builds from an element. -/
def mkPost (st : ScriptState) (el : DomElement) : Post :=
  { platform := st.currentPlatform, author := el.author,
    content := trimWs el.textContent, url := st.pageUrl,
    media_type := el.mediaType }

/-- extractPostFromElement from content.js: trim the textContent, reject it
when empty or shorter than 10 characters, drop it when its PostId is already
in extractedPosts, otherwise record the PostId and, only while listening,
send the post to the backend. -/
def extractPostFromElement (st : ScriptState) (el : DomElement) : ScriptState :=
  if (trimWs el.textContent).length < 10 then st
  else if generatePostId st.currentPlatform (trimWs el.textContent)
      ∈ st.extractedPosts then st
  else if st.isListening then
    { st with
        extractedPosts := st.extractedPosts
          ++ [generatePostId st.currentPlatform (trimWs el.textContent)],
        requests := st.requests ++ [mkPost st el] }
  else
    { st with
        extractedPosts := st.extractedPosts
          ++ [generatePostId st.currentPlatform (trimWs el.textContent)] }

/-- startListening from content.js: set the listening flag, show the player
overlay, set the status line, start voice recognition. It does not touch the
audio player. -/
def startListening (st : ScriptState) : ScriptState :=
  { st with isListening := true, playerVisible := true,
            status := "Listening for posts...", voiceActive := true }

/-- stopListening from content.js: clear the listening flag, hide the player,
set the status line, stop voice recognition, pause and release the audio. -/
def stopListening (st : ScriptState) : ScriptState :=
  { st with isListening := false, playerVisible := false,
            status := "Stopped", voiceActive := false, audioPlayer := none }

/-- pauseListening from content.js: when an audio player exists, pause it and
set the status line; its position is untouched. -/
def pauseListening (st : ScriptState) : ScriptState :=
  match st.audioPlayer with
  | some a =>
    { st with audioPlayer := some { a with paused := true },
              status := "Paused" }
  | none => st

/-- skipCurrent from content.js: jump the current audio to its duration. -/
def skipCurrent (st : ScriptState) : ScriptState :=
  match st.audioPlayer with
  | some a =>
    { st with audioPlayer := some { a with pos := a.duration },
              status := "Skipped" }
  | none => st

/-- replayCurrent from content.js: reset the current audio to position zero
and play it. -/
def replayCurrent (st : ScriptState) : ScriptState :=
  match st.audioPlayer with
  | some a =>
    { st with audioPlayer := some { a with pos := 0, paused := false },
              status := "Replaying..." }
  | none => st

/-- A processed post as returned by the backend to the content script:
audio url, summary, and the duration of the referenced audio. -/
structure ProcessedPost where
  audio_url : String
  summary : String
  duration : Nat
deriving DecidableEq

/-- JS s.split(sep) on a single character. -/
def splitOnChar (sep : Char) : List Char → List (List Char)
  | [] => [[]]
  | c :: rest =>
    if c = sep then [] :: splitOnChar sep rest
    else match splitOnChar sep rest with
      | [] => [[c]]
      | p :: ps => (c :: p) :: ps

/-- The audio url playAudio builds: backendUrl, "/audio/", and the last
segment of the audio_url field split on the slash character. -/
def audioUrlFor (pp : ProcessedPost) : String :=
  "http://localhost:8000/audio/"
    ++ String.mk ((splitOnChar '/' pp.audio_url.toList).getLastD [])

/-- playAudio from content.js: pause whatever is playing, replace it with a
fresh Audio for the processed post starting at position zero, set the status
line and reset the progress bar. There is no queue: the previous player is
discarded. -/
def playAudio (st : ScriptState) (pp : ProcessedPost) : ScriptState :=
  { st with
      audioPlayer := some { url := audioUrlFor pp, pos := 0,
                            duration := pp.duration, paused := false },
      status := "Playing: " ++ pp.summary,
      progress := 0 }

/-- The ended listener installed by playAudio: status back to Ready,
progress bar reset; the player reference itself is kept. -/
def audioEnded (st : ScriptState) : ScriptState :=
  { st with status := "Ready", progress := 0 }

/-- JS String.includes: is the needle a contiguous substring. -/
def containsSub (needle : List Char) : List Char → Bool
  | [] => needle.isPrefixOf ([] : List Char)
  | c :: rest => needle.isPrefixOf (c :: rest) || containsSub needle rest

/-- handleVoiceCommand from content.js: dispatch the lowercased utterance by
substring containment, first matching branch wins, in source order:
play or start, then pause or stop, then skip or next, then replay or repeat. -/
def handleVoiceCommand (st : ScriptState) (command : List Char) : ScriptState :=
  if containsSub ("play".toList) command || containsSub ("start".toList) command then
    startListening st
  else if containsSub ("pause".toList) command || containsSub ("stop".toList) command then
    pauseListening st
  else if containsSub ("skip".toList) command || containsSub ("next".toList) command then
    skipCurrent st
  else if containsSub ("replay".toList) command || containsSub ("repeat".toList) command then
    replayCurrent st
  else st

/-- Whitespace collapsing as the specification describes the PostId
normalization: every run of whitespace becomes a single space, case
preserved. Written from the claim wording, to compare with the source
generatePostId, which performs no such collapsing. -/
def collapseWs : List Char → List Char
  | [] => []
  | [c] => if pyIsSpace c then [' '] else [c]
  | c :: d :: rest =>
    if pyIsSpace c && pyIsSpace d then collapseWs (d :: rest)
    else (if pyIsSpace c then ' ' else c) :: collapseWs (d :: rest)

/-- C1: chunk_text can emit a chunk longer than max_size. With max_size 5 the
input "ab. cccccccc. de" yields the 8-character chunk "cccccccc": an
over-long sentence is installed as current_chunk untruncated whenever the
previous current_chunk was nonempty, and is later flushed whole; the
word-splitting fallback with its hard truncation only runs when current_chunk
is empty. The same shape with a 3001-character sentence exceeds the default
3000 limit. -/
theorem chunk_text_emits_oversized_chunk :
    chunk_text ("ab. cccccccc. de".toList) 5 =
        ["ab".toList, "cccccccc".toList] ∧
      5 < ("cccccccc".toList).length := by
  decide

/-- C2: chunk_text never flushes the trailing current_chunk, so content is
lost: "aa. bb" with max_size 4 returns no chunks at all, and concatenating
the output cannot reconstruct any of the input. -/
theorem chunk_text_drops_trailing_text :
    4 < ("aa. bb".toList).length ∧ chunk_text ("aa. bb".toList) 4 = [] := by
  decide

/-- C3: every text whose length is at most maxSize is returned as a single
chunk equal to the text itself. -/
theorem chunk_text_short_single (text : List Char) (maxSize : Nat)
    (h : text.length ≤ maxSize) : chunk_text text maxSize = [text] := by
  unfold chunk_text
  rw [if_pos h]

/-- Witness for C3 at the concrete text "hello world" with the default
maximum 3000. -/
theorem chunk_text_short_single_witness :
    ("hello world".toList).length ≤ 3000 ∧
      chunk_text ("hello world".toList) 3000 = ["hello world".toList] :=
  ⟨by decide, chunk_text_short_single ("hello world".toList) 3000 (by decide)⟩

/-- C4: observing the same element a second time leaves the state exactly as
after the first observation, even if the listening flag was toggled in
between: the PostId recorded by the first observation is found in
extractedPosts and the element is dropped, so no second backend request is
issued. -/
theorem extract_second_observation_dropped (st : ScriptState)
    (el : DomElement) (b : Bool) :
    extractPostFromElement
        { extractPostFromElement st el with isListening := b } el
      = { extractPostFromElement st el with isListening := b } := by
  unfold extractPostFromElement
  by_cases h1 : (trimWs el.textContent).length < 10
  · simp [h1]
  · by_cases h2 : generatePostId st.currentPlatform (trimWs el.textContent)
        ∈ st.extractedPosts
    · simp [h1, h2]
    · by_cases h3 : st.isListening <;> simp [h1, h2, h3]

/-- C5 counterexample: two texts that are equal after collapsing whitespace
runs receive different PostIds, because generatePostId hashes the text as
given and never collapses internal whitespace. -/
theorem generatePostId_not_collapse_invariant :
    collapseWs ("a b".toList) = collapseWs ("a  b".toList) ∧
      generatePostId "twitter" ("a b".toList)
        ≠ generatePostId "twitter" ("a  b".toList) := by
  decide

/-- C5 amended: the PostId fingerprint is computed from the boundary-trimmed,
case-preserved post text plus the platform tag; two raw texts on the same
platform that are equal after trimming produce the same PostId along the
extraction path (which trims before hashing). -/
theorem postId_trim_invariant (platform : String) (t1 t2 : List Char)
    (h : trimWs t1 = trimWs t2) :
    generatePostId platform (trimWs t1) = generatePostId platform (trimWs t2) := by
  rw [h]

/-- Witness for the amended C5 at two concrete texts differing only in
boundary whitespace. -/
theorem postId_trim_invariant_witness :
    trimWs ("  hello post  ".toList) = trimWs ("hello post".toList) ∧
      generatePostId "linkedin" (trimWs ("  hello post  ".toList))
        = generatePostId "linkedin" (trimWs ("hello post".toList)) :=
  ⟨by decide,
    postId_trim_invariant "linkedin" ("  hello post  ".toList)
      ("hello post".toList) (by decide)⟩

/-- C6 counterexample: an utterance containing both "pause" and "play" is
dispatched to startListening (the play rule), not to pauseListening, because
the source checks play and start first. -/
theorem handleVoiceCommand_pause_play_counterexample :
    handleVoiceCommand (initialState "twitter" "u") ("pause play".toList)
        = startListening (initialState "twitter" "u") ∧
      handleVoiceCommand (initialState "twitter" "u") ("pause play".toList)
        ≠ pauseListening (initialState "twitter" "u") := by
  decide

/-- C6 amended: handleVoiceCommand maps the utterance by substring
containment with the first matching rule winning, checked in the source
order play or start, then pause or stop, then skip or next, then replay or
repeat, and leaves the state unchanged when nothing matches. -/
theorem handleVoiceCommand_priority (st : ScriptState) (cmd : List Char) :
    ((containsSub ("play".toList) cmd || containsSub ("start".toList) cmd) = true →
        handleVoiceCommand st cmd = startListening st) ∧
      ((containsSub ("play".toList) cmd || containsSub ("start".toList) cmd) = false →
        (containsSub ("pause".toList) cmd || containsSub ("stop".toList) cmd) = true →
        handleVoiceCommand st cmd = pauseListening st) ∧
      ((containsSub ("play".toList) cmd || containsSub ("start".toList) cmd) = false →
        (containsSub ("pause".toList) cmd || containsSub ("stop".toList) cmd) = false →
        (containsSub ("skip".toList) cmd || containsSub ("next".toList) cmd) = true →
        handleVoiceCommand st cmd = skipCurrent st) ∧
      ((containsSub ("play".toList) cmd || containsSub ("start".toList) cmd) = false →
        (containsSub ("pause".toList) cmd || containsSub ("stop".toList) cmd) = false →
        (containsSub ("skip".toList) cmd || containsSub ("next".toList) cmd) = false →
        (containsSub ("replay".toList) cmd || containsSub ("repeat".toList) cmd) = true →
        handleVoiceCommand st cmd = replayCurrent st) ∧
      ((containsSub ("play".toList) cmd || containsSub ("start".toList) cmd) = false →
        (containsSub ("pause".toList) cmd || containsSub ("stop".toList) cmd) = false →
        (containsSub ("skip".toList) cmd || containsSub ("next".toList) cmd) = false →
        (containsSub ("replay".toList) cmd || containsSub ("repeat".toList) cmd) = false →
        handleVoiceCommand st cmd = st) := by
  refine ⟨?_, ?_, ?_, ?_, ?_⟩ <;> intros <;> simp_all [handleVoiceCommand]

/-- Witness for the amended C6: "please skip this one" matches none of the
earlier rules and is dispatched to skipCurrent. -/
theorem handleVoiceCommand_priority_witness :
    handleVoiceCommand (initialState "twitter" "u")
        ("please skip this one".toList)
      = skipCurrent (initialState "twitter" "u") :=
  (handleVoiceCommand_priority (initialState "twitter" "u")
      ("please skip this one".toList)).2.2.1 (by decide) (by decide) (by decide)

/-- C7 counterexample: with an AudioUnit playing at position 5, pause
followed by play does not return the player to the playing state at
position 5: startListening never touches the audio player, so the unit is
still paused. -/
theorem pause_then_play_does_not_resume :
    (startListening (pauseListening
        { initialState "twitter" "u" with
            audioPlayer := some
              { url := "a.wav", pos := 5, duration := 10,
                paused := false } })).audioPlayer
      ≠ some { url := "a.wav", pos := 5, duration := 10, paused := false } := by
  decide

/-- C7 amended: pause followed by play preserves the same audio object and
its playback position, and nothing restarts from the beginning; however the
unit is left paused, because the play control (startListening) does not
touch the audio player at all. -/
theorem pause_play_preserves_position (st : ScriptState) (a : AudioPlayer)
    (h : st.audioPlayer = some a) :
    (startListening (pauseListening st)).audioPlayer
      = some { a with paused := true } := by
  simp [pauseListening, startListening, h]

/-- Witness for the amended C7 at a concrete state playing at position 5. -/
theorem pause_play_preserves_position_witness :
    (startListening (pauseListening
        { initialState "twitter" "u" with
            audioPlayer := some
              { url := "b.wav", pos := 5, duration := 10,
                paused := false } })).audioPlayer
      = some { url := "b.wav", pos := 5, duration := 10, paused := true } :=
  pause_play_preserves_position
    { initialState "twitter" "u" with
        audioPlayer := some
          { url := "b.wav", pos := 5, duration := 10, paused := false } }
    { url := "b.wav", pos := 5, duration := 10, paused := false } rfl

/-- C8 counterexample: a second AudioUnit arriving while the first is
playing does not wait in a queue; playAudio replaces the current player with
a fresh one for the second unit at position zero, so the first unit is
preempted, not played to completion. -/
theorem second_audio_preempts_first :
    (playAudio (playAudio (initialState "twitter" "u")
          { audio_url := "temp_audio/a.wav", summary := "post A",
            duration := 7 })
        { audio_url := "temp_audio/b.wav", summary := "post B",
          duration := 9 }).audioPlayer
        ≠ (playAudio (initialState "twitter" "u")
          { audio_url := "temp_audio/a.wav", summary := "post A",
            duration := 7 }).audioPlayer ∧
      (playAudio (playAudio (initialState "twitter" "u")
          { audio_url := "temp_audio/a.wav", summary := "post A",
            duration := 7 })
        { audio_url := "temp_audio/b.wav", summary := "post B",
          duration := 9 }).audioPlayer
        = some { url := "http://localhost:8000/audio/b.wav", pos := 0,
                 duration := 9, paused := false } := by
  decide

/-- C8 amended: there is no playback queue: playAudio always discards the
current audio and replaces it, so playing unit B after unit A leaves exactly
the state reached by playing B alone, and on natural completion the ended
listener only resets the status line to Ready. -/
theorem playAudio_overwrites (st : ScriptState) (p1 p2 : ProcessedPost) :
    playAudio (playAudio st p1) p2 = playAudio st p2 ∧
      (audioEnded (playAudio st p2)).status = "Ready" := by
  constructor <;> rfl

/-- C9: stopListening is idempotent, and after it the listening flag is
down, so a subsequent extraction records the PostId but issues no backend
request: the requests list is unchanged. -/
theorem stop_idempotent_blocks_submission (st : ScriptState)
    (el : DomElement) :
    stopListening (stopListening st) = stopListening st ∧
      (extractPostFromElement (stopListening st) el).requests
        = (stopListening st).requests := by
  constructor
  · rfl
  · unfold extractPostFromElement stopListening
    by_cases h1 : (trimWs el.textContent).length < 10
    · simp [h1]
    · by_cases h2 : generatePostId st.currentPlatform (trimWs el.textContent)
          ∈ st.extractedPosts
      · simp [h1, h2]
      · simp [h1, h2]

/-- C10: a post already present at initialization is extracted while the
script is not yet listening: no request is issued, its PostId lands in the
dedup set, and when the same post is re-observed after startListening it is
suppressed, so it is never narrated at all. -/
theorem init_posts_never_narrated (platform url : String) (el : DomElement)
    (h : 10 ≤ (trimWs el.textContent).length) :
    (extractPostFromElement (initialState platform url) el).requests = [] ∧
      generatePostId platform (trimWs el.textContent)
        ∈ (extractPostFromElement (initialState platform url) el).extractedPosts ∧
      (extractPostFromElement
          (startListening (extractPostFromElement (initialState platform url) el))
          el).requests = [] := by
  have h1 : ¬ (trimWs el.textContent).length < 10 := Nat.not_lt.mpr h
  simp [extractPostFromElement, initialState, startListening, h1]

/-- Witness for C10 at a concrete element whose trimmed text has 16
characters. -/
theorem init_posts_never_narrated_witness :
    10 ≤ (trimWs ("hello world post".toList)).length ∧
      (extractPostFromElement
          (startListening (extractPostFromElement
            (initialState "linkedin" "https://example.com")
            (DomElement.mk ("hello world post".toList) "Ann" "text")))
          (DomElement.mk ("hello world post".toList) "Ann" "text")).requests
        = [] :=
  ⟨by decide,
    (init_posts_never_narrated "linkedin" "https://example.com"
      (DomElement.mk ("hello world post".toList) "Ann" "text") (by decide)).2.2⟩
